import Mathlib

/-!
Shallow embedding of the MCT32/rust-irc protocol engine: the message codec
and command taxonomy of `src/message.rs` and the read-loop dispatcher of
`src/client.rs`, with theorems settling the frozen claims about them.

Rust `String` values are modelled as Lean `String`; byte-level operations
(`len()`, byte-range slicing) are modelled on the character list `String.data`,
which coincides with the byte view on the ASCII data the protocol grammar
admits.  Rust `u16`/`u32` are modelled as `Nat` (the code never exercises
overflow: numeric command codes are three decimal digits, and `parse::<u32>`
is modelled with its `u32::MAX` bound).  A Rust `panic!`/`unwrap` outcome is
modelled as an explicit `panicked` result so that crash behaviour is visible
in the embedding.
-/

namespace RustIrc

/-- Modelled from the spec: the grammar-error enum `crate::error::Error` used by
`src/message.rs` (`NoMatch`, `NoCommand`, `Invalid`) is not among the staged
files (the staged `error.rs` is an earlier iteration defining only connection
errors); its three variants are taken from spec section 7 and from every use
site in `message.rs`. -/
inductive Error where
  | noMatch (s : String)
  | noCommand (s : String)
  | invalid
deriving DecidableEq, Repr

/-- Result of a Rust computation that can return `Ok`, return `Err`, or
`panic!` (from `unwrap()` on `None`/`Err` or an explicit `panic!`). -/
inductive PRes (α : Type) where
  | ok (a : α)
  | err (e : Error)
  | panicked (msg : String)
deriving DecidableEq, Repr

def PRes.bind {α β : Type} : PRes α → (α → PRes β) → PRes β
  | .ok a, f => f a
  | .err e, _ => .err e
  | .panicked m, _ => .panicked m

instance : Monad PRes where
  pure := PRes.ok
  bind := PRes.bind

/-- `GenericIrcCommandType` from `src/message.rs`: a textual command name or a
numeric reply code (`u16`, modelled as `Nat`). -/
inductive GenericIrcCommandType where
  | text (s : String)
  | number (n : Nat)
deriving DecidableEq, Repr

/-- `GenericIrcCommand` from `src/message.rs`: command code plus ordered
parameter list. -/
structure GenericIrcCommand where
  command : GenericIrcCommandType
  params : List String
deriving DecidableEq, Repr

/-- `IrcCommand` from `src/message.rs`: the typed command taxonomy with the
`Generic` escape hatch.  `RplMyInfo`'s six fields keep `message.rs`'s names
(`servername`, `version`, …, `cmodes_params : String`). -/
inductive IrcCommand where
  | pass (password : String)
  | nick (nickname : String)
  | user (username realname : String)
  | ping (message : String)
  | pong (message : String)
  | notice (target message : String)
  | errorMsg (message : String)
  | rplWelcome (client message : String)
  | rplYourHost (client message : String)
  | rplCreated (client message : String)
  | rplMyInfo (client servername version umodes cmodes cmodesParams : String)
  | rplISupport (client : String) (caps : List String)
  | rplLUserClient (client message : String)
  | rplLUserOp (client : String) (ops : Nat) (message : String)
  | rplLUserUnknown (client : String) (connections : Nat) (message : String)
  | rplLUserChannels (client : String) (channels : Nat) (message : String)
  | rplLUserMe (client message : String)
  | rplLocalUsers (client : String) (users : Option (Nat × Nat)) (message : String)
  | rplGlobalUsers (client : String) (users : Option (Nat × Nat)) (message : String)
  | rplMotdStart (client message : String)
  | rplMotd (client message : String)
  | rplEndOfMotd (client message : String)
  | rplHostHidden (client host message : String)
  | generic (g : GenericIrcCommand)
deriving DecidableEq, Repr

/-- `IrcMessage` from `src/message.rs`.  The field `prefix` is a reserved word
in Lean, so it is named `pfx` here. -/
structure IrcMessage where
  tags : List (String × Option String)
  pfx : Option String
  command : IrcCommand
deriving DecidableEq, Repr

/-! ## String helpers mirroring the Rust standard-library operations used -/

/-- Rust `str::split(c)` on the character view: `"a;;b"` gives
`["a", "", "b"]`, `""` gives `[""]`. -/
def splitOnCharAux (c : Char) : List Char → List Char → List (List Char)
  | [], acc => [acc.reverse]
  | x :: xs, acc =>
    if x = c then acc.reverse :: splitOnCharAux c xs []
    else splitOnCharAux c xs (x :: acc)

def splitOnChar (c : Char) (l : List Char) : List (List Char) :=
  splitOnCharAux c l []

/-- Rust `str::split_once(c)`: the parts before and after the first
occurrence of `c`, or `none` when `c` does not occur. -/
def splitOnceChar (c : Char) : List Char → Option (List Char × List Char)
  | [] => none
  | x :: xs =>
    if x = c then some ([], xs)
    else (splitOnceChar c xs).map fun p => (x :: p.1, p.2)

/-- Rust `str::contains(' ')`. -/
def hasSpace (s : String) : Bool := s.data.contains ' '

/-- Decimal value of a digit run (used under guards that every character is a
digit, mirroring `parse::<u16>` / `parse::<u32>` on validated input). -/
def digitsVal (l : List Char) : Nat :=
  l.foldl (fun a c => a * 10 + (c.toNat - '0'.toNat)) 0

/-- Rust `str::parse::<u32>()` as an `Option`: an optional leading `+`, then
one or more decimal digits, value at most `u32::MAX`. -/
def u32FromStr? (s : String) : Option Nat :=
  let ds := match s.data with
    | '+' :: rest => rest
    | l => l
  if ds ≠ [] ∧ ds.all Char.isDigit then
    let n := digitsVal ds
    if n ≤ 4294967295 then some n else none
  else none

/-- Rust `format!("{:03}", n)`: the decimal rendering of `n`, zero-padded on
the left to a minimum width of three. -/
def padTo3 (n : Nat) : String :=
  let s := Nat.repr n
  String.mk (List.replicate (3 - s.data.length) '0' ++ s.data)

/-- All but the last element and the last element of a list, when nonempty
(the `params.iter().take(len - 1)` / `params.last()` split of the
serializer). -/
def splitLast {α : Type} : List α → Option (List α × α)
  | [] => none
  | [a] => some ([], a)
  | a :: b :: l =>
    match splitLast (b :: l) with
    | some (i, x) => some (a :: i, x)
    | none => none

/-! ## The wire grammar (`message.rs` regexes, embedded as deterministic
matchers)

Both regexes are anchored and every repeated character class excludes its own
delimiter, so the regex engine's behaviour on them is deterministic: each
capture is the maximal run of its class, and a failed mandatory literal after
an optional group can never be repaired by backtracking (a command token can
start with neither `@` nor `:`). -/

/-- Character admissible in the tag segment and the prefix segment:
`[^\n\r\x00 ]`. -/
def tokOk (c : Char) : Bool :=
  ¬(c = '\n' ∨ c = '\r' ∨ c = '\x00' ∨ c = ' ')

/-- Character admissible in the parameter section: `[^\n\r\x00]`. -/
def paramOk (c : Char) : Bool :=
  ¬(c = '\n' ∨ c = '\r' ∨ c = '\x00')

/-- Optional segment `(?:M(run) )?` of the message regex, where `M` is `@`
(tags) or `:` (prefix) and `run` is a nonempty `tokOk` run followed by a
space.  When the marker is present but the segment cannot complete, the whole
match fails (no command token may start with the marker). -/
def optSeg (mark : Char) (l : List Char) : Option (Option (List Char) × List Char) :=
  match l with
  | [] => some (none, [])
  | c :: rest =>
    if c = mark then
      let run := rest.takeWhile tokOk
      if run.isEmpty then none
      else
        match rest.dropWhile tokOk with
        | ' ' :: rest2 => some (some run, rest2)
        | _ => none
    else some (none, l)

/-- Command token `[A-Z]+|[0-9]{3}` at the head of `l`, as
(token, remainder). -/
def matchToken (l : List Char) : Option (List Char × List Char) :=
  match l with
  | [] => none
  | c :: _ =>
    if c.isUpper then
      some (l.takeWhile Char.isUpper, l.dropWhile Char.isUpper)
    else if c.isDigit then
      match l with
      | a :: b :: d :: rest =>
        if b.isDigit && d.isDigit then some ([a, b, d], rest) else none
      | _ => none
    else none

/-- Tail `( [^\n\r\x00]+)?\r\n$` of the message regex: after the command
token, either the terminating CRLF, or a space, a nonempty `paramOk` run and
then the terminating CRLF. -/
def msgAfterToken (rest : List Char) : Option (Option (List Char)) :=
  match rest with
  | '\r' :: '\n' :: [] => some none
  | ' ' :: ps =>
    let run := ps.takeWhile paramOk
    if run.isEmpty then none
    else if ps.dropWhile paramOk = ['\r', '\n'] then some (some run)
    else none
  | _ => none

/-- The `IrcMessage` regex
`^(?:@([^\n\r\x00 ]+) )?(?::([^\r\n\x00 ]+) )?((?:[A-Z]+|[0-9]{3})( [^\n\r\x00]+)?)\r\n$`:
the tag capture, the prefix capture, and capture 3 (command token together
with the optional space-led parameter section). -/
def matchMessageRegex (l : List Char) :
    Option (Option (List Char) × Option (List Char) × List Char) :=
  match optSeg '@' l with
  | none => none
  | some (tags?, l1) =>
    match optSeg ':' l1 with
    | none => none
    | some (pfx?, l2) =>
      match matchToken l2 with
      | none => none
      | some (tok, rest) =>
        match msgAfterToken rest with
        | none => none
        | some ps? =>
          some (tags?, pfx?, tok ++ (match ps? with
            | some ps => ' ' :: ps
            | none => []))

/-- Tail `(?: ([^\n\r\x00]+))?$` of the `GenericIrcCommand` regex: either the
end of input, or a space and a nonempty `paramOk` run extending to the end. -/
def genAfterToken (rest : List Char) : Option (Option (List Char)) :=
  match rest with
  | [] => some none
  | ' ' :: ps =>
    let run := ps.takeWhile paramOk
    if run.isEmpty then none
    else if ps.dropWhile paramOk = [] then some (some run)
    else none
  | _ => none

/-- The `GenericIrcCommand` regex `^([A-Z]+|[0-9]{3})(?: ([^\n\r\x00]+))?$`:
the command-token capture and the parameter-section capture. -/
def matchGenericRegex (l : List Char) : Option (List Char × Option (List Char)) :=
  match matchToken l with
  | none => none
  | some (tok, rest) =>
    match genAfterToken rest with
    | none => none
    | some ps? => some (tok, ps?)

/-! ## Parsing (`TryFrom<&str>` impls in `message.rs`) -/

/-- `TryFrom<&str> for GenericIrcCommandType`: first character classifies the
token; three decimal digits give `Number`, an all-uppercase word gives `Text`,
anything else is `Invalid`.  `chars().next().unwrap()` on an empty token is a
panic.  (`is_numeric` is modelled as the decimal-digit test; the inputs this
code receives come through the `[0-9]`/`[A-Z]` regex classes, where the two
coincide.) -/
def genericTypeFromStr (s : String) : PRes GenericIrcCommandType :=
  match s.data with
  | [] => .panicked "called Option.unwrap on a None value"
  | c :: _ =>
    if '0' ≤ c ∧ c ≤ '9' then
      if s.data.length = 3 ∧ s.data.all Char.isDigit then
        .ok (.number (digitsVal s.data))
      else .err .invalid
    else if 'A' ≤ c ∧ c ≤ 'Z' then
      if s.data.all Char.isUpper then .ok (.text s) else .err .invalid
    else .err .invalid

/-- The parameter-section split of `TryFrom<&str> for GenericIrcCommand`:
`params.split_once(":")` — the first colon anywhere, not a space-colon pair —
then, when a colon was found, the part before it minus its final byte split on
spaces (empty part giving no middle parameters), with the part after the
colon appended as the final parameter; with no colon, a plain space split. -/
def splitParams (ps : List Char) : List (List Char) :=
  match splitOnceChar ':' ps with
  | some (pre, trailing) =>
    (if pre = [] then [] else splitOnChar ' ' pre.dropLast) ++ [trailing]
  | none => splitOnChar ' ' ps

/-- `TryFrom<&str> for GenericIrcCommand` (`message.rs:455`): regex match,
token classification, parameter split. -/
def parseGenericCommand (s : String) : PRes GenericIrcCommand :=
  match matchGenericRegex s.data with
  | none => .err (.noMatch s)
  | some (tok, ps?) =>
    (genericTypeFromStr (String.mk tok)).bind fun command =>
      let params := match ps? with
        | none => []
        | some ps => (splitParams ps).map String.mk
      .ok ⟨command, params⟩

/-- `params.get(i).unwrap()`: the `i`-th parameter, panicking when absent. -/
def getp (ps : List String) (i : Nat) : PRes String :=
  match ps.get? i with
  | some s => .ok s
  | none => .panicked "called Option.unwrap on a None value"

/-- `s.parse::<u32>().unwrap()`. -/
def parseU32Unwrap (s : String) : PRes Nat :=
  match u32FromStr? s with
  | some n => .ok n
  | none => .panicked "called Result.unwrap on an Err value"

/-- `TryFrom<GenericIrcCommand> for IrcCommand` (`message.rs:161`), the
promotion of a generic command to its typed arm.  Unknown text commands and
numeric codes fall through to `Generic` (the debug `eprintln!` is elided);
missing parameters and failed numeric parses are `unwrap` panics, exactly as
in the source. -/
def promote (value : GenericIrcCommand) : PRes IrcCommand :=
  match value.command with
  | .text command =>
    match command with
    | "PASS" => do let a ← getp value.params 0; pure (.pass a)
    | "NICK" => do let a ← getp value.params 0; pure (.nick a)
    | "USER" => do
      let a ← getp value.params 0
      let b ← getp value.params 1
      pure (.user a b)
    | "PING" => do let a ← getp value.params 0; pure (.ping a)
    | "PONG" => do let a ← getp value.params 0; pure (.pong a)
    | "NOTICE" => do
      let a ← getp value.params 0
      let b ← getp value.params 1
      pure (.notice a b)
    | "ERROR" => do let a ← getp value.params 0; pure (.errorMsg a)
    | _ => .ok (.generic value)
  | .number command =>
    match command with
    | 1 => do
      let a ← getp value.params 0
      let b ← getp value.params 1
      pure (.rplWelcome a b)
    | 2 => do
      let a ← getp value.params 0
      let b ← getp value.params 1
      pure (.rplYourHost a b)
    | 3 => do
      let a ← getp value.params 0
      let b ← getp value.params 1
      pure (.rplCreated a b)
    | 4 => do
      let a ← getp value.params 0
      let b ← getp value.params 1
      let c ← getp value.params 2
      let d ← getp value.params 3
      let e ← getp value.params 4
      let f ← getp value.params 5
      pure (.rplMyInfo a b c d e f)
    | 5 => do
      let a ← getp value.params 0
      pure (.rplISupport a (value.params.drop 1))
    | 251 => do
      let a ← getp value.params 0
      let b ← getp value.params 1
      pure (.rplLUserClient a b)
    | 252 => do
      let a ← getp value.params 0
      let n ← (getp value.params 1).bind parseU32Unwrap
      let b ← getp value.params 2
      pure (.rplLUserOp a n b)
    | 253 => do
      let a ← getp value.params 0
      let n ← (getp value.params 1).bind parseU32Unwrap
      let b ← getp value.params 2
      pure (.rplLUserUnknown a n b)
    | 254 => do
      let a ← getp value.params 0
      let n ← (getp value.params 1).bind parseU32Unwrap
      let b ← getp value.params 2
      pure (.rplLUserChannels a n b)
    | 255 => do
      let a ← getp value.params 0
      let b ← getp value.params 1
      pure (.rplLUserMe a b)
    | 265 =>
      if value.params.length = 2 then do
        let a ← getp value.params 0
        let b ← getp value.params 1
        pure (.rplLocalUsers a none b)
      else if value.params.length = 4 then do
        let a ← getp value.params 0
        let cur ← (getp value.params 1).bind parseU32Unwrap
        let mx ← (getp value.params 2).bind parseU32Unwrap
        let b ← getp value.params 3
        pure (.rplLocalUsers a (some (cur, mx)) b)
      else .err .invalid
    | 266 =>
      if value.params.length = 2 then do
        let a ← getp value.params 0
        let b ← getp value.params 1
        pure (.rplGlobalUsers a none b)
      else if value.params.length = 4 then do
        let a ← getp value.params 0
        let cur ← (getp value.params 1).bind parseU32Unwrap
        let mx ← (getp value.params 2).bind parseU32Unwrap
        let b ← getp value.params 3
        pure (.rplGlobalUsers a (some (cur, mx)) b)
      else .err .invalid
    | 375 => do
      let a ← getp value.params 0
      let b ← getp value.params 1
      pure (.rplMotdStart a b)
    | 372 => do
      let a ← getp value.params 0
      let b ← getp value.params 1
      pure (.rplMotd a b)
    | 376 => do
      let a ← getp value.params 0
      let b ← getp value.params 1
      pure (.rplEndOfMotd a b)
    | 396 => do
      let a ← getp value.params 0
      let b ← getp value.params 1
      let c ← getp value.params 2
      pure (.rplHostHidden a b c)
    | _ => .ok (.generic value)

/-- Tags out of capture 1: `split(';')`, each entry `split_once('=')`
(`key=value` or a bare key). -/
def parseTags (ts : List Char) : List (String × Option String) :=
  (splitOnChar ';' ts).map fun kv =>
    match splitOnceChar '=' kv with
    | some (k, v) => (String.mk k, some (String.mk v))
    | none => (String.mk kv, none)

/-- `TryFrom<&str> for IrcMessage` (`message.rs:16`): regex match, tag and
prefix extraction, then `IrcCommand::try_from` on capture 3 (itself
`GenericIrcCommand::try_from` followed by promotion), with any `Err` of the
command conversion collapsed to `Error::Invalid` by the
`let Ok(command) = ... else return Err(Error::Invalid)` pattern. -/
def parseIrcMessage (s : String) : PRes IrcMessage :=
  match matchMessageRegex s.data with
  | none => .err (.noMatch s)
  | some (tags?, pfx?, grp3) =>
    let tags := match tags? with
      | none => []
      | some ts => parseTags ts
    match (parseGenericCommand (String.mk grp3)).bind promote with
    | .ok command => .ok ⟨tags, pfx?.map String.mk, command⟩
    | .err _ => .err .invalid
    | .panicked m => .panicked m

/-! ## Serialization (`TryFrom<... > for String` impls and `From` in
`message.rs`) -/

/-- `From<GenericIrcCommandType> for String`: numeric codes rendered with
`{:03}` zero-padding. -/
def typeToString : GenericIrcCommandType → String
  | .number n => padTo3 n
  | .text t => t

/-- `From<IrcCommand> for GenericIrcCommand` (`message.rs:250`), the
demotion of a typed command to its generic form. -/
def demote : IrcCommand → GenericIrcCommand
  | .pass password => ⟨.text "PASS", [password]⟩
  | .nick nickname => ⟨.text "NICK", [nickname]⟩
  | .user username realname => ⟨.text "USER", [username, "0", "*", realname]⟩
  | .ping message => ⟨.text "PING", [message]⟩
  | .pong message => ⟨.text "PONG", [message]⟩
  | .notice target message => ⟨.text "NOTICE", [target, message]⟩
  | .errorMsg message => ⟨.text "ERROR", [message]⟩
  | .rplWelcome client message => ⟨.number 1, [client, message]⟩
  | .rplYourHost client message => ⟨.number 2, [client, message]⟩
  | .rplCreated client message => ⟨.number 3, [client, message]⟩
  | .rplMyInfo client servername version umodes cmodes cmodesParams =>
    ⟨.number 4, [client, servername, version, umodes, cmodes, cmodesParams]⟩
  | .rplISupport client caps => ⟨.number 5, client :: caps⟩
  | .rplLUserClient client message => ⟨.number 251, [client, message]⟩
  | .rplLUserOp client ops message => ⟨.number 252, [client, Nat.repr ops, message]⟩
  | .rplLUserUnknown client connections message =>
    ⟨.number 253, [client, Nat.repr connections, message]⟩
  | .rplLUserChannels client channels message =>
    ⟨.number 254, [client, Nat.repr channels, message]⟩
  | .rplLUserMe client message => ⟨.number 255, [client, message]⟩
  | .rplLocalUsers client users message =>
    ⟨.number 265, match users with
      | none => [client, message]
      | some (current, mx) => [client, Nat.repr current, Nat.repr mx, message]⟩
  | .rplGlobalUsers client users message =>
    ⟨.number 266, match users with
      | none => [client, message]
      | some (current, mx) => [client, Nat.repr current, Nat.repr mx, message]⟩
  | .rplMotdStart client message => ⟨.number 375, [client, message]⟩
  | .rplMotd client message => ⟨.number 372, [client, message]⟩
  | .rplEndOfMotd client message => ⟨.number 376, [client, message]⟩
  | .rplHostHidden client host message => ⟨.number 396, [client, host, message]⟩
  | .generic g => g

/-- `TryFrom<GenericIrcCommand> for String` (`message.rs:499`): the command
token, then each non-final parameter preceded by a space (`Invalid` when any
of them contains a space), then the final parameter preceded by `" :"` when it
contains a space and a plain space otherwise. -/
def serializeGeneric (g : GenericIrcCommand) : Except Error String :=
  let buffer := typeToString g.command
  match splitLast g.params with
  | none => .ok buffer
  | some (init, last) =>
    if init.any hasSpace then .error .invalid
    else
      let buffer := buffer ++ String.join (init.map fun p => " " ++ p)
      .ok (buffer ++ (if hasSpace last then " :" ++ last else " " ++ last))

/-- The tag section of serialization: `@`, the `;`-joined `key[=value]`
entries, a space; empty when there are no tags. -/
def tagsToString (tags : List (String × Option String)) : String :=
  if tags.isEmpty then ""
  else
    "@" ++ String.intercalate ";" (tags.map fun kv =>
      kv.1 ++ (match kv.2 with
        | some v => "=" ++ v
        | none => "")) ++ " "

/-- `TryFrom<IrcMessage> for String` (`message.rs:77`): tags, optional
`:prefix `, the demoted command serialized, CRLF. -/
def serializeIrcMessage (m : IrcMessage) : Except Error String :=
  match serializeGeneric (demote m.command) with
  | .error e => .error e
  | .ok cmd =>
    .ok (tagsToString m.tags ++
      (match m.pfx with
        | some p => ":" ++ p ++ " "
        | none => "") ++ cmd ++ "\r\n")

/-! ## The client read loop (`src/client.rs`)

The staged `event.rs` and parts of `context.rs` are an earlier iteration
(its `Event` variants embed the context and lack `Motd`/`UnhandledMessage`);
the `Event` enum below is modelled from the spec (section 6) and from every
construction site in `client.rs`, which passes the context separately. -/

/-- `ConnectionStatus` from `src/context.rs`. -/
inductive ConnectionStatus where
  | connecting
  | connected
  | disconnected
deriving DecidableEq, Repr

/-- `Motd` from `src/client.rs`: the MOTD accumulation state machine. -/
inductive Motd where
  | empty
  | building (text : String)
  | done (text : String)
deriving DecidableEq, Repr

/-- `Context` from `src/context.rs`: the snapshot handed to observers
(`Arc` indirections dropped). -/
structure Context where
  status : ConnectionStatus
  motd : Motd
deriving DecidableEq, Repr

/-- Modelled from the spec: the `Event` enum as used by `client.rs`
(spec section 6 lists exactly these variants); the staged `event.rs` is an
earlier iteration that does not match `client.rs`'s uses. -/
inductive Event where
  | rawMessage (m : IrcMessage)
  | statusChange
  | welcomeMsg (s : String)
  | errorMsg (s : String)
  | notice (s : String)
  | motd
  | unhandledMessage (m : IrcMessage)
deriving DecidableEq, Repr

/-- The mutable per-connection state the read-loop task shares through
`Arc<Mutex<..>>`: connection status, MOTD accumulator and the server-info
fields. -/
structure LoopState where
  status : ConnectionStatus
  motd : Motd
  serverName : String
  serverVersion : String
  umodes : String
  cmodes : String
  cmodesParams : String
deriving DecidableEq, Repr

/-- State of `Client` when `connect` starts its read loop
(`ClientBuilder::into_future`): `Connecting`, empty MOTD, empty server-info
strings. -/
def initState : LoopState :=
  ⟨.connecting, .empty, "", "", "", "", ""⟩

/-- `ClientBuilder::new`: the username defaults to the nickname when not
given (`username.unwrap_or(nickname)`). -/
def clientUsername (nickname : String) (username? : Option String) : String :=
  username?.getD nickname

/-- Outcome of one dispatch of a parsed message in the read loop: either the
updated shared state plus the semantic events derived for the line, or a
`panic!`. -/
inductive StepOut where
  | panic (msg : String)
  | next (st : LoopState) (events : List Event)
deriving DecidableEq, Repr

/-- Events of a non-panicking step (empty for a panic). -/
def StepOut.events : StepOut → List Event
  | .panic _ => []
  | .next _ es => es

/-- State after a step (unchanged placeholder for a panic). -/
def StepOut.state (st : LoopState) : StepOut → LoopState
  | .panic _ => st
  | .next st' _ => st'

/-- The `match message.clone().command` of `Client::connect`'s read loop
(`client.rs:156`): semantic-event derivation and shared-state transitions for
one parsed message.  All target comparisons are against the client's
`username`, exactly as in the source.  The `RplMyInfo` arm sets all five
server-info fields (the source destructures `cmodes_params` as an `Option`,
but `message.rs`'s variant carries a plain `String`, so it is always
present); the `RplISupport` arm emits the joined capability list (the source
destructures a third `message` field that `message.rs`'s two-field variant
does not have). -/
def stepMessage (username : String) (st : LoopState) (message : IrcMessage) : StepOut :=
  match message.command with
  | .notice target text =>
    .next st (if target = username ∨ target = "*" then [.notice text] else [])
  | .errorMsg text => .next st [.errorMsg text]
  | .rplWelcome target text =>
    if target = username then
      .next { st with status := .connected } [.statusChange, .welcomeMsg text]
    else .next st []
  | .rplYourHost target text =>
    .next st (if target = username then [.welcomeMsg text] else [])
  | .rplCreated target text =>
    .next st (if target = username then [.welcomeMsg text] else [])
  | .rplMyInfo client sn sv um cm cp =>
    if client = username then
      .next { st with serverName := sn, serverVersion := sv,
                      umodes := um, cmodes := cm, cmodesParams := cp } []
    else .next st []
  | .rplISupport target caps =>
    .next st (if target = username then
      [.welcomeMsg (String.intercalate ", " caps)] else [])
  | .rplLUserClient target text =>
    .next st (if target = username then [.welcomeMsg text] else [])
  | .rplLUserOp target ops text =>
    .next st (if target = username then
      [.welcomeMsg (Nat.repr ops ++ " " ++ text)] else [])
  | .rplLUserUnknown target connections text =>
    .next st (if target = username then
      [.welcomeMsg (Nat.repr connections ++ " " ++ text)] else [])
  | .rplLUserChannels target channels text =>
    .next st (if target = username then
      [.welcomeMsg (Nat.repr channels ++ " " ++ text)] else [])
  | .rplLUserMe target text =>
    .next st (if target = username then [.welcomeMsg text] else [])
  | .rplLocalUsers target _ text =>
    .next st (if target = username then [.welcomeMsg text] else [])
  | .rplGlobalUsers target _ text =>
    .next st (if target = username then [.welcomeMsg text] else [])
  | .rplMotdStart target text =>
    if target = username then
      match st.motd with
      | .empty => .next { st with motd := .building (text ++ "\n") } []
      | _ => .panic "MOTD already started"
    else .next st []
  | .rplMotd target text =>
    if target = username then
      match st.motd with
      | .building buffer => .next { st with motd := .building (buffer ++ text ++ "\n") } []
      | _ => .panic "MOTD not started"
    else .next st []
  | .rplEndOfMotd target text =>
    if target = username then
      match st.motd with
      | .building buffer => .next { st with motd := .done (buffer ++ text) } [.motd]
      | _ => .panic "MOTD not started"
    else .next st []
  | .rplHostHidden target host text =>
    .next st (if target = username then [.welcomeMsg (host ++ " " ++ text)] else [])
  | .ping _ => .next st []
  | _ => .next st [.unhandledMessage message]

/-- One observable step of the read-loop task on the transport and the
observer list: reading a line, delivering an event to an observer (observers
are identified by their registration index), writing bytes, or a `panic!`
that kills the task. -/
inductive Action where
  | readLine (line : String)
  | deliver (h : Nat) (ctx : Context) (e : Event)
  | write (bytes : String)
  | panicked (msg : String)
deriving DecidableEq, Repr

/-- The dispatch loop over observers (`client.rs:354`): each observer gets the
`RawMessage` event first and then every derived semantic event, in order. -/
def deliveries (hs : List Nat) (ctx : Context) (message : IrcMessage)
    (events : List Event) : List Action :=
  hs.flatMap fun h =>
    Action.deliver h ctx (.rawMessage message) :: events.map (Action.deliver h ctx)

/-- The automatic keepalive reply (`client.rs:362`): for a `Ping`, the
serialization of `IrcMessage { tags: [], prefix: None, command: Pong(token) }`
is written to the transport; nothing is written for any other command. -/
def pongReply (c : IrcCommand) : Option (Except Error String) :=
  match c with
  | .ping m => some (serializeIrcMessage ⟨[], none, .pong m⟩)
  | _ => none

/-- The read loop of `Client::connect` (`client.rs:150`), as the trace of
actions it performs while consuming the given lines in order: read a line,
parse it (`unwrap` panics on a parse error), derive events and update state,
build the context snapshot from the updated state, deliver to every observer,
then write the `Pong` reply when the command was `Ping` (`unwrap` panics on a
serialization error), and only then read the next line. -/
def runLoop (username : String) (hs : List Nat) :
    LoopState → List String → List Action
  | _, [] => []
  | st, line :: rest =>
    Action.readLine line ::
    match parseIrcMessage line with
    | .err _ => [.panicked "called Result.unwrap on an Err value"]
    | .panicked m => [.panicked m]
    | .ok message =>
      match stepMessage username st message with
      | .panic m => [.panicked m]
      | .next st' events =>
        deliveries hs ⟨st'.status, st'.motd⟩ message events ++
        match pongReply message.command with
        | some (.ok bytes) => Action.write bytes :: runLoop username hs st' rest
        | some (.error _) => [.panicked "called Result.unwrap on an Err value"]
        | none => runLoop username hs st' rest

/-- Control flow of `Client::connect` (`client.rs:376`) after the TCP
connection succeeds and the read-loop task is spawned: write the `Nick`
registration command, write the `User` registration command, then `loop {}`;
the `Ok(())` after the loop is the function's only return. -/
inductive ConnectPhase where
  | writeNick
  | writeUser
  | spin
  | returned
deriving DecidableEq, Repr

/-- One step of `Client::connect`'s post-spawn control flow; the empty
`loop {}` steps to itself, and no phase steps into `returned`. -/
def connectStep : ConnectPhase → ConnectPhase
  | .writeNick => .writeUser
  | .writeUser => .spin
  | .spin => .spin
  | .returned => .returned

/-- `n` steps of `connectStep`. -/
def connectRun : Nat → ConnectPhase → ConnectPhase
  | 0, p => p
  | n + 1, p => connectRun n (connectStep p)

/-- Whether `connect` has reached its `Ok(())` return. -/
def ConnectPhase.isReturned : ConnectPhase → Bool
  | .returned => true
  | _ => false

/-! ## Helper lemmas -/

/-- A `takeWhile`/`dropWhile` scan that satisfies the predicate on all of `l`
and fails at `b` splits `l ++ b :: r` exactly at `b`. -/
theorem scan_append_stop {p : Char → Bool} :
    ∀ (l : List Char) (b : Char) (r : List Char), (∀ c ∈ l, p c = true) → p b = false →
      (l ++ b :: r).takeWhile p = l ∧ (l ++ b :: r).dropWhile p = b :: r
  | [], b, r, _, hb => by simp [List.takeWhile, List.dropWhile, hb]
  | a :: l, b, r, hl, hb => by
    have ha : p a = true := hl a (List.mem_cons_self a l)
    have ih := scan_append_stop l b r (fun c hc => hl c (List.mem_cons_of_mem a hc)) hb
    simp [List.takeWhile, List.dropWhile, ha, ih.1, ih.2]

/-- With no semantic events derived, the dispatch loop delivers exactly one
`RawMessage` to each observer, in registration order. -/
theorem deliveries_no_events (hs : List Nat) (ctx : Context) (m : IrcMessage) :
    deliveries hs ctx m [] = hs.map fun h => Action.deliver h ctx (.rawMessage m) := by
  induction hs with
  | nil => rfl
  | cons h hs ih =>
    simp only [deliveries, List.flatMap_cons, List.map_cons, List.map_nil] at ih ⊢
    rw [ih]
    rfl

/-- A phase that is not `returned` never becomes `returned`: `connectStep`
maps every non-`returned` phase to a non-`returned` phase. -/
theorem connectRun_not_returned :
    ∀ (n : Nat) (p : ConnectPhase), p.isReturned = false →
      (connectRun n p).isReturned = false
  | 0, p, hp => hp
  | n + 1, p, hp => by
    have hstep : (connectStep p).isReturned = false := by
      cases p <;> simp_all [connectStep, ConnectPhase.isReturned]
    exact connectRun_not_returned n (connectStep p) hstep

/-! ## The claims -/

/-- C1: the round-trip law `parse(serialize(m)) = m` fails on the code for
the message `{ tags: [], prefix: None, command: User("u", "r") }`: it
serializes to the grammatical line `"USER u 0 * r\r\n"`, but parsing that
line back promotes parameter 1 — the `"0"` mode field the serializer
inserted — as the realname, yielding `User("u", "0") ≠ User("u", "r")`. -/
theorem user_roundtrip_breaks :
    serializeIrcMessage ⟨[], none, .user "u" "r"⟩ = .ok "USER u 0 * r\r\n" ∧
    parseIrcMessage "USER u 0 * r\r\n" = .ok ⟨[], none, .user "u" "0"⟩ ∧
    (⟨[], none, .user "u" "0"⟩ : IrcMessage) ≠ ⟨[], none, .user "u" "r"⟩ := by
  refine ⟨rfl, rfl, by decide⟩

/-- C2: promotion after demotion does not reproduce the `User` variant: the
demotion emits the four-parameter wire form `[username, "0", "*", realname]`
while the promotion reads parameter 1 as the realname, so
`promote(demote(User(u, r))) = User(u, "0")` for every `u` and `r` — the
realname survives the round trip only when it was literally `"0"`. -/
theorem promote_demote_user (u r : String) :
    promote (demote (.user u r)) = .ok (.user u "0") := rfl

/-- C4: feeding `RplMotd` addressed to the client while `Motd` is `Empty`
does not produce a reported error: the dispatcher executes
`panic!("MOTD not started")`, terminating the read-loop task, for every
username, message text and connection state whose MOTD is `Empty`. -/
theorem rplMotd_on_empty_panics (u text : String) (tags : List (String × Option String))
    (pfx : Option String) (status : ConnectionStatus) (sn sv um cm cp : String) :
    stepMessage u ⟨status, .empty, sn, sv, um, cm, cp⟩ ⟨tags, pfx, .rplMotd u text⟩ =
      .panic "MOTD not started" := by
  simp [stepMessage]

/-- C5 counterexample: for a client built with nickname `"nick"` and username
`"user"`, a NOTICE whose target `"user"` is neither the client's nickname nor
`"*"` nevertheless derives a `Notice` event — the dispatcher compares the
target against the username, not the nickname, so the claim as stated is
false. -/
theorem notice_nickname_filter_fails :
    clientUsername "nick" (some "user") = "user" ∧
    ("user" : String) ≠ "nick" ∧ ("user" : String) ≠ "*" ∧
    (stepMessage "user" initState ⟨[], none, .notice "user" "hi"⟩).events =
      [.notice "hi"] := by
  refine ⟨rfl, by decide, by decide, rfl⟩

/-- C5 (amended: the target is matched against the client's username, which
only defaults to the nickname): a NOTICE whose target is neither the
username nor `"*"` derives no semantic event, so each observer receives
exactly the `RawMessage` event; when the target equals the username or
`"*"`, the derived events are exactly `[Notice(text)]`, and each observer
receives the `Notice` immediately after its `RawMessage`. -/
theorem notice_target_filtering (username target text : String) (st : LoopState)
    (tags : List (String × Option String)) (pfx : Option String) (hs : List Nat) :
    (target ≠ username → target ≠ "*" →
      stepMessage username st ⟨tags, pfx, .notice target text⟩ = .next st [] ∧
      deliveries hs ⟨st.status, st.motd⟩ ⟨tags, pfx, .notice target text⟩ [] =
        hs.map fun h => Action.deliver h ⟨st.status, st.motd⟩
          (.rawMessage ⟨tags, pfx, .notice target text⟩)) ∧
    ((target = username ∨ target = "*") →
      stepMessage username st ⟨tags, pfx, .notice target text⟩ =
        .next st [.notice text] ∧
      deliveries hs ⟨st.status, st.motd⟩ ⟨tags, pfx, .notice target text⟩ [.notice text] =
        hs.flatMap fun h =>
          [Action.deliver h ⟨st.status, st.motd⟩
            (.rawMessage ⟨tags, pfx, .notice target text⟩),
           Action.deliver h ⟨st.status, st.motd⟩ (.notice text)]) := by
  constructor
  · intro h1 h2
    exact ⟨by simp [stepMessage, h1, h2], deliveries_no_events hs _ _⟩
  · intro h
    refine ⟨by simp [stepMessage, h], ?_⟩
    simp [deliveries]

/-- C5 witness: both branches of the filtering theorem at concrete inputs
(target `"other"` matching neither, then target `"*"`). -/
theorem notice_target_filtering_witness :
    (stepMessage "user" initState ⟨[], none, .notice "other" "hi"⟩ = .next initState [] ∧
      deliveries [0] ⟨initState.status, initState.motd⟩
        ⟨[], none, .notice "other" "hi"⟩ [] =
        [0].map fun h => Action.deliver h ⟨initState.status, initState.motd⟩
          (.rawMessage ⟨[], none, .notice "other" "hi"⟩)) ∧
    (stepMessage "user" initState ⟨[], none, .notice "*" "hi"⟩ =
      .next initState [.notice "hi"]) :=
  ⟨(notice_target_filtering "user" "other" "hi" initState [] none [0]).1
      (by decide) (by decide),
   ((notice_target_filtering "user" "*" "hi" initState [] none [0]).2
      (Or.inr rfl)).1⟩

/-- C6 counterexample: for a client built with nickname `"nick"` and username
`"user"`, feeding the MOTD sequence with target equal to the client's own
nickname leaves the Motd state `Empty` at every step and emits no event at
all — the dispatcher's target comparisons are against the username, so the
claimed `Empty → Building → Building → Done` progression does not happen. -/
theorem motd_nickname_sequence_fails :
    clientUsername "nick" (some "user") = "user" ∧
    ("nick" : String) ≠ "user" ∧
    stepMessage "user" initState ⟨[], none, .rplMotdStart "nick" "Welcome"⟩ =
      .next initState [] ∧
    stepMessage "user" initState ⟨[], none, .rplMotd "nick" "line2"⟩ =
      .next initState [] ∧
    stepMessage "user" initState ⟨[], none, .rplEndOfMotd "nick" "bye"⟩ =
      .next initState [] ∧
    initState.motd = Motd.empty := by
  refine ⟨rfl, by decide, by decide, by decide, by decide, rfl⟩

/-- C6 (amended: the target is compared against the client's username, which
defaults to the nickname): feeding, in order, `RplMotdStart(u, "Welcome")`,
`RplMotd(u, "line2")`, `RplEndOfMotd(u, "bye")` with `u` the client's
username drives the Motd state `Empty → Building("Welcome\n") →
Building("Welcome\nline2\n") → Done("Welcome\nline2\nbye")` (the final line
appended without a trailing newline), the first two steps emit no event, and
the final step emits exactly the one `Motd` event. -/
theorem motd_accumulation (u : String) (status : ConnectionStatus)
    (sn sv um cm cp : String) :
    stepMessage u ⟨status, .empty, sn, sv, um, cm, cp⟩
        ⟨[], none, .rplMotdStart u "Welcome"⟩ =
      .next ⟨status, .building "Welcome\n", sn, sv, um, cm, cp⟩ [] ∧
    stepMessage u ⟨status, .building "Welcome\n", sn, sv, um, cm, cp⟩
        ⟨[], none, .rplMotd u "line2"⟩ =
      .next ⟨status, .building "Welcome\nline2\n", sn, sv, um, cm, cp⟩ [] ∧
    stepMessage u ⟨status, .building "Welcome\nline2\n", sn, sv, um, cm, cp⟩
        ⟨[], none, .rplEndOfMotd u "bye"⟩ =
      .next ⟨status, .done "Welcome\nline2\nbye", sn, sv, um, cm, cp⟩ [.motd] := by
  refine ⟨by simp [stepMessage], by simp [stepMessage], by simp [stepMessage]⟩

/-- C7: converting a `Generic` command whose code matches the known mapping
`NICK` but whose parameter list is empty does not return a structural error
value: the `params.get(0).unwrap()` in the promotion panics. -/
theorem nick_missing_param_panics :
    promote ⟨.text "NICK", []⟩ = .panicked "called Option.unwrap on a None value" := rfl

/-- C8: promotion of the 265/266 (LOCAL/GLOBAL USERS) numerics branches on
the parameter count: two parameters build the variant with `None` for the
numeric pair, four parameters build it with `Some((current, max))` (when the
two middle parameters parse as `u32`), and every other parameter count
returns the `Invalid` error rather than panicking. -/
theorem local_global_users_shapes (ps : List String) (a b x y : String) (n m : Nat) :
    (ps.length ≠ 2 → ps.length ≠ 4 →
      promote ⟨.number 265, ps⟩ = .err .invalid ∧
      promote ⟨.number 266, ps⟩ = .err .invalid) ∧
    (promote ⟨.number 265, [a, b]⟩ = .ok (.rplLocalUsers a none b) ∧
     promote ⟨.number 266, [a, b]⟩ = .ok (.rplGlobalUsers a none b)) ∧
    (u32FromStr? x = some n → u32FromStr? y = some m →
      promote ⟨.number 265, [a, x, y, b]⟩ = .ok (.rplLocalUsers a (some (n, m)) b) ∧
      promote ⟨.number 266, [a, x, y, b]⟩ = .ok (.rplGlobalUsers a (some (n, m)) b)) := by
  refine ⟨fun h2 h4 => ?_, ⟨rfl, rfl⟩, fun hx hy => ?_⟩
  · constructor <;> simp [promote, h2, h4]
  · have px : parseU32Unwrap x = .ok n := by unfold parseU32Unwrap; rw [hx]
    have py : parseU32Unwrap y = .ok m := by unfold parseU32Unwrap; rw [hy]
    constructor
    · show ((parseU32Unwrap x).bind fun cur => (parseU32Unwrap y).bind fun mx =>
        PRes.ok (IrcCommand.rplLocalUsers a (some (cur, mx)) b)) =
          PRes.ok (IrcCommand.rplLocalUsers a (some (n, m)) b)
      rw [px, py]
      rfl
    · show ((parseU32Unwrap x).bind fun cur => (parseU32Unwrap y).bind fun mx =>
        PRes.ok (IrcCommand.rplGlobalUsers a (some (cur, mx)) b)) =
          PRes.ok (IrcCommand.rplGlobalUsers a (some (n, m)) b)
      rw [px, py]
      rfl

/-- C8 witness: the three branch shapes at concrete inputs — parameter count
1 gives `Invalid`, `["a", "b"]` gives the `None` shape, `["a", "3", "7", "b"]`
gives `Some((3, 7))`. -/
theorem local_global_users_shapes_witness :
    (promote ⟨.number 265, ["z"]⟩ = .err .invalid ∧
     promote ⟨.number 266, ["z"]⟩ = .err .invalid) ∧
    (promote ⟨.number 265, ["a", "b"]⟩ = .ok (.rplLocalUsers "a" none "b") ∧
     promote ⟨.number 266, ["a", "b"]⟩ = .ok (.rplGlobalUsers "a" none "b")) ∧
    (promote ⟨.number 265, ["a", "3", "7", "b"]⟩ =
      .ok (.rplLocalUsers "a" (some (3, 7)) "b") ∧
     promote ⟨.number 266, ["a", "3", "7", "b"]⟩ =
      .ok (.rplGlobalUsers "a" (some (3, 7)) "b")) :=
  ⟨(local_global_users_shapes ["z"] "a" "b" "3" "7" 3 7).1 (by decide) (by decide),
   (local_global_users_shapes ["z"] "a" "b" "3" "7" 3 7).2.1,
   (local_global_users_shapes ["z"] "a" "b" "3" "7" 3 7).2.2 (by decide) (by decide)⟩

/-- C9: the trailing parameter does not begin only at a space-colon pair: the
parser splits the parameter section at the first colon anywhere
(`split_once(":")`) and deletes the byte before it, so the line section
`"CMD ab:cd ef"` — whose colon sits inside a middle parameter, not after a
space — parses to the corrupted parameters `["a", "cd ef"]` instead of
`["ab:cd", "ef"]`. -/
theorem colon_inside_param_starts_trailing :
    parseGenericCommand "CMD ab:cd ef" = .ok ⟨.text "CMD", ["a", "cd ef"]⟩ ∧
    (["a", "cd ef"] : List String) ≠ ["ab:cd", "ef"] := by
  refine ⟨by decide, by decide⟩

/-- A nonempty all-good run bounded by CRLF is exactly what the message
regex's parameter tail accepts. -/
theorem msgAfterToken_run (ps : List Char) (h : ps.isEmpty = false)
    (hok : ∀ c ∈ ps, paramOk c = true) :
    msgAfterToken (' ' :: (ps ++ ['\r', '\n'])) = some (some ps) := by
  have hsc := scan_append_stop (p := paramOk) ps '\r' ['\n'] hok (by decide)
  have step : msgAfterToken (' ' :: (ps ++ ['\r', '\n'])) =
      (if ((ps ++ ['\r', '\n']).takeWhile paramOk).isEmpty then none
       else if (ps ++ ['\r', '\n']).dropWhile paramOk = ['\r', '\n'] then
         some (some ((ps ++ ['\r', '\n']).takeWhile paramOk))
       else none) := rfl
  rw [step, hsc.1, hsc.2, h]
  rfl

/-- A nonempty all-good run extending to the end of input is exactly what the
generic regex's parameter tail accepts. -/
theorem genAfterToken_run (ps : List Char) (h : ps.isEmpty = false)
    (hok : ∀ c ∈ ps, paramOk c = true) :
    genAfterToken (' ' :: ps) = some (some ps) := by
  have h1 : ps.takeWhile paramOk = ps := List.takeWhile_eq_self_iff.mpr hok
  have h2 : ps.dropWhile paramOk = [] := List.dropWhile_eq_nil_iff.mpr hok
  have step : genAfterToken (' ' :: ps) =
      (if (ps.takeWhile paramOk).isEmpty then none
       else if ps.dropWhile paramOk = [] then some (some (ps.takeWhile paramOk))
       else none) := rfl
  rw [step, h1, h2, h]
  rfl

/-- Parsing `"PING :" ++ t ++ "\r\n"`: for any token text `t` free of
CR/LF/NUL, the message regex matches with no tags and no prefix, the
parameter section `":" ++ t` splits into the single trailing parameter `t`,
and promotion yields the typed `Ping t`. -/
theorem parse_ping_line (t : String) (ht : ∀ c ∈ t.data, paramOk c = true) :
    parseIrcMessage ("PING :" ++ t ++ "\r\n") = .ok ⟨[], none, .ping t⟩ := by
  have hok : ∀ c ∈ ':' :: t.data, paramOk c = true := by
    intro c hc
    rcases List.mem_cons.mp hc with h | h
    · subst h; decide
    · exact ht c h
  have hmsg := msgAfterToken_run (':' :: t.data) rfl hok
  have hgen := genAfterToken_run (':' :: t.data) rfl hok
  have hreg : matchMessageRegex
      ('P' :: 'I' :: 'N' :: 'G' :: ' ' :: ((':' :: t.data) ++ ['\r', '\n'])) =
      some (none, none, 'P' :: 'I' :: 'N' :: 'G' :: ' ' :: ':' :: t.data) := by
    have step : matchMessageRegex
        ('P' :: 'I' :: 'N' :: 'G' :: ' ' :: ((':' :: t.data) ++ ['\r', '\n'])) =
        (match msgAfterToken (' ' :: ((':' :: t.data) ++ ['\r', '\n'])) with
         | none => none
         | some ps? => some (none, none, (['P', 'I', 'N', 'G'] : List Char) ++
             (match ps? with
              | some ps => ' ' :: ps
              | none => []))) := rfl
    rw [step, hmsg]
    rfl
  have hpg : parseGenericCommand
      (String.mk ('P' :: 'I' :: 'N' :: 'G' :: ' ' :: ':' :: t.data)) =
      .ok ⟨.text "PING", [t]⟩ := by
    have step : parseGenericCommand
        (String.mk ('P' :: 'I' :: 'N' :: 'G' :: ' ' :: ':' :: t.data)) =
        (match (match genAfterToken (' ' :: (':' :: t.data)) with
                | none => none
                | some ps? => some ((['P', 'I', 'N', 'G'] : List Char), ps?)) with
         | none =>
           PRes.err (.noMatch (String.mk ('P' :: 'I' :: 'N' :: 'G' :: ' ' :: ':' :: t.data)))
         | some (tok, ps?) =>
           (genericTypeFromStr (String.mk tok)).bind fun command =>
             PRes.ok ⟨command, match ps? with
               | none => []
               | some ps => (splitParams ps).map String.mk⟩) := rfl
    rw [step, hgen]
    rfl
  calc parseIrcMessage ("PING :" ++ t ++ "\r\n")
      = (match (parseGenericCommand
            (String.mk ('P' :: 'I' :: 'N' :: 'G' :: ' ' :: ':' :: t.data))).bind promote with
         | .ok command => PRes.ok ⟨[], none, command⟩
         | .err _ => PRes.err .invalid
         | .panicked m => PRes.panicked m) := by
        have hline : parseIrcMessage ("PING :" ++ t ++ "\r\n") =
            (match matchMessageRegex
                ('P' :: 'I' :: 'N' :: 'G' :: ' ' :: ((':' :: t.data) ++ ['\r', '\n'])) with
             | none => PRes.err (.noMatch ("PING :" ++ t ++ "\r\n"))
             | some (tags?, pfx?, grp3) =>
               match (parseGenericCommand (String.mk grp3)).bind promote with
               | .ok command =>
                 PRes.ok ⟨(match tags? with
                   | none => []
                   | some ts => parseTags ts), pfx?.map String.mk, command⟩
               | .err _ => PRes.err .invalid
               | .panicked m => PRes.panicked m) := rfl
        rw [hline, hreg]
        rfl
    _ = PRes.ok ⟨[], none, .ping t⟩ := by
        rw [hpg]
        rfl

/-- Serializing the automatic `Pong` reply message: the wire bytes are
`"PONG " ++ t ++ CRLF`, with the `" :"` trailing marker inserted exactly when
the token contains a space. -/
theorem pong_serialize (t : String) :
    serializeIrcMessage ⟨[], none, .pong t⟩ =
      .ok ((if hasSpace t then "PONG :" else "PONG ") ++ (t ++ "\r\n")) := by
  have step : serializeIrcMessage ⟨[], none, .pong t⟩ =
      .ok (("" : String) ++ "" ++
        ("PONG" ++ String.join [] ++ (if hasSpace t then " :" ++ t else " " ++ t)) ++
        "\r\n") := rfl
  rw [step]
  cases h : hasSpace t <;> rfl

/-- C3 counterexample: on the line `"PING :token\r\n"` the dispatcher's reply
bytes are `"PONG token\r\n"` — the token is re-serialized without the colon,
because the serializer prefixes `" :"` only to a final parameter containing a
space — so the claimed exact bytes `"PONG :token\r\n"` are not what is
written. -/
theorem pong_reply_bytes_differ :
    runLoop "user" [0] initState ["PING :token\r\n"] =
      [Action.readLine "PING :token\r\n",
       Action.deliver 0 ⟨.connecting, .empty⟩
         (.rawMessage ⟨[], none, .ping "token"⟩),
       Action.write "PONG token\r\n"] ∧
    ("PONG token\r\n" : String) ≠ "PONG :token\r\n" := by
  refine ⟨rfl, by decide⟩

/-- C3 (amended: the reply is the re-serialized `Pong`, carrying the `" :"`
marker only when the token contains a space): upon reading a line
`"PING :" ++ t ++ "\r\n"` (token free of CR/LF/NUL), the read loop delivers
the raw message to the observers, then writes the `Pong` reply —
`"PONG " ++ t ++ "\r\n"` when `t` has no space, `"PONG :" ++ t ++ "\r\n"`
when it does — and only after that write does it continue with the remaining
lines, so the reply precedes the next read. -/
theorem ping_reply_before_next_read (t username : String) (hs : List Nat)
    (st : LoopState) (rest : List String)
    (ht : ∀ c ∈ t.data, paramOk c = true) :
    runLoop username hs st (("PING :" ++ t ++ "\r\n") :: rest) =
      Action.readLine ("PING :" ++ t ++ "\r\n") ::
        (deliveries hs ⟨st.status, st.motd⟩ ⟨[], none, .ping t⟩ [] ++
          Action.write ((if hasSpace t then "PONG :" else "PONG ") ++ (t ++ "\r\n")) ::
            runLoop username hs st rest) := by
  have hp := parse_ping_line t ht
  have hw := pong_serialize t
  simp only [runLoop, hp, stepMessage, pongReply, hw]

/-- C3 witness: the keepalive trace shape at the concrete token `"token"`
with one observer and one further line. -/
theorem ping_reply_witness :
    runLoop "user" [0] initState ["PING :token\r\n", "LEAVE\r\n"] =
      Action.readLine "PING :token\r\n" ::
        (deliveries [0] ⟨initState.status, initState.motd⟩
            ⟨[], none, .ping "token"⟩ [] ++
          Action.write ((if hasSpace "token" then "PONG :" else "PONG ") ++
              ("token" ++ "\r\n")) ::
            runLoop "user" [0] initState ["LEAVE\r\n"]) :=
  ping_reply_before_next_read "token" "user" [0] initState ["LEAVE\r\n"] (by decide)

/-- C10: on a successful connection `Client::connect` never reaches its
`Ok(())` return: after the registration writes the control flow enters
`loop {}`, which steps to itself, and no number of steps from the first
registration write reaches the `returned` phase. -/
theorem connect_never_returns (n : Nat) :
    connectStep .spin = .spin ∧
    (connectRun n .writeNick).isReturned = false :=
  ⟨rfl, connectRun_not_returned n .writeNick rfl⟩

end RustIrc
